import Mathlib

/-!
Verification of the synaptics fingerprint driver core
(src/libfprint/drivers/synaptics/synaptics.c).

The driver is shallowly embedded: the per-device session state is a
structure, each C callback becomes a pure function from its inputs to a
new session plus the action it performs on the surrounding state machine
(fail / complete / advance / jump), and externally visible completion or
progress calls are recorded as an explicit event list.

The headers `synaptics.h` and `bmkt_message.h` are not part of the
sources; the message-id constants, result codes and the command state
enum they declare are modelled here as distinct natural numbers.  Only
their distinctness matters to the development, except for the state enum
whose order is pinned by the code itself (the machine starts at state 0,
which must be the send state; the comment and the `fpi_ssm_next_state`
call at the end of `cmd_recieve_cb` place `WAIT_INTERRUPT` directly
after `GET_RESP`).  The sequence-number fields are one-byte unsigned
integers (the frame carries a single sequence byte, and
`synaptics_sensor_cmd` stores them through the `guint8 real_seq_num`),
modelled as naturals reduced mod 256 at every store.
-/

/-- Modelled from the spec: command state enum from the missing
`synaptics.h`.  State 0 must be the send state (the SSM starts there and
its first action is transmitting the pending command). -/
def SYNAPTICS_CMD_SEND_PENDING : Nat := 0

/-- Get-Response state: reading a bulk reply.  Pinned to follow
Send-Pending (the jump targets in `cmd_recieve_cb` and
`cmd_interrupt_cb` address it by name). -/
def SYNAPTICS_CMD_GET_RESP : Nat := 1

/-- Wait-Interrupt state; `cmd_recieve_cb` reaches it from Get-Response
via `fpi_ssm_next_state` (see the comment at its final dispatch), so it
is Get-Response + 1. -/
def SYNAPTICS_CMD_WAIT_INTERRUPT : Nat := 2

/-- Send-Async state, reached from Wait-Interrupt by
`fpi_ssm_next_state` in `cmd_interrupt_cb`. -/
def SYNAPTICS_CMD_SEND_ASYNC : Nat := 3

/-- Restart state, reached from Send-Async by the generic transfer
callback advancing on success; it jumps back to Send-Pending. -/
def SYNAPTICS_CMD_RESTART : Nat := 4

/-- Number of states in the command state machine. -/
def SYNAPTICS_CMD_NUM_STATES : Nat := 5

/-- Modelled from the spec: interrupt status bit from the missing
`synaptics.h`; only its being a fixed nonzero mask matters. -/
def USB_ASYNC_MESSAGE_PENDING : Nat := 4

/-- Modelled from the spec: message and result identifiers from the
missing `bmkt_message.h`; the values are arbitrary but distinct. -/
def BMKT_EVT_FINGER_REPORT : Nat := 145

/-- General-error message id (0-sequence fatal error frames). -/
def BMKT_RSP_GENERAL_ERROR : Nat := 129

/-- Cancellation-acknowledged response id. -/
def BMKT_RSP_CANCEL_OP_OK : Nat := 118

/-- Cancellation-failed response id. -/
def BMKT_RSP_CANCEL_OP_FAIL : Nat := 119

/-- Verify-ready response id. -/
def BMKT_RSP_VERIFY_READY : Nat := 160

/-- Capture-complete response id. -/
def BMKT_RSP_CAPTURE_COMPLETE : Nat := 161

/-- Verify-failure response id. -/
def BMKT_RSP_VERIFY_FAIL : Nat := 162

/-- Verify-success response id. -/
def BMKT_RSP_VERIFY_OK : Nat := 163

/-- Result code: momentary sensor stimulus error (retryable). -/
def BMKT_SENSOR_STIMULUS_ERROR : Nat := 48

/-- Result code: fingerprint did not match. -/
def BMKT_FP_NO_MATCH : Nat := 49

/-- Result code: no such record in the database. -/
def BMKT_FP_DATABASE_NO_RECORD_EXISTS : Nat := 50

/-- Modelled from the spec: maximum user-id length from the missing
bmkt header; the claims use it only symbolically. -/
def BMKT_MAX_USER_ID_LEN : Nat := 100

/-- libfprint match-result code FPI_MATCH_ERROR. -/
def FPI_MATCH_ERROR : Nat := 0

/-- libfprint match-result code FPI_MATCH_FAIL. -/
def FPI_MATCH_FAIL : Nat := 1

/-- libfprint match-result code FPI_MATCH_SUCCESS. -/
def FPI_MATCH_SUCCESS : Nat := 2

/-- Errors produced by the driver (GError values, by their meaning). -/
inductive DriverError where
  /-- G_IO_ERROR_CANCELLED. -/
  | ioCancelled : DriverError
  /-- FP_DEVICE_ERROR_PROTO without extra data. -/
  | proto : DriverError
  /-- FP_DEVICE_ERROR_PROTO carrying the general-error code read
  big-endian from a 0-sequence general-error frame. -/
  | protoGeneralError (code : Nat) : DriverError
  /-- FP_DEVICE_RETRY_GENERAL. -/
  | retryGeneral : DriverError
  /-- FP_DEVICE_ERROR_DATA_INVALID. -/
  | dataInvalid : DriverError
  /-- FP_DEVICE_ERROR_DATA_NOT_FOUND. -/
  | dataNotFound : DriverError
  /-- FP_DEVICE_ERROR_GENERAL. -/
  | general : DriverError
  /-- An arbitrary transport error forwarded from a transfer. -/
  | transport (kind : Nat) : DriverError
deriving DecidableEq

/-- Parsed message header (`bmkt_msg_resp_t`): message id, sequence
number and payload bytes (`payload_len` is the list length). -/
structure MsgResp where
  msg_id : Nat
  seq_num : Nat
  payload : List Nat
deriving DecidableEq

/-- Parsed response (`bmkt_response_t`): response id, result code and
the complete flag; `progress` stands for the enroll-report payload. -/
structure BmktResponse where
  response_id : Nat
  result : Nat
  complete : Bool
  progress : Nat
deriving DecidableEq

/-- Per-device session state (`FpiDeviceSynaptics` fields used by the
command layer).  The two sequence counters are one-byte values; the
pending transfer and the active SSM are modelled by their presence. -/
structure Session where
  last_seq_num : Nat
  cmd_seq_num : Nat
  finger_on_sensor : Bool
  cmd_complete_on_removal : Bool
  cmd_complete_error : Option DriverError
  cmd_complete_data : Nat
  cmd_pending_transfer : Bool
  cmd_ssm : Bool
deriving DecidableEq

/-- Action performed on the state machine by a completion callback. -/
inductive SsmAction where
  | failed (e : DriverError) : SsmAction
  | completed : SsmAction
  | nextState : SsmAction
  | jumpTo (st : Nat) : SsmAction
deriving DecidableEq

/-- Externally visible driver events (libfprint completion and progress
calls). -/
inductive DevEvent where
  | verifyReport (result : Nat) : DevEvent
  | verifyComplete (error : Option DriverError) : DevEvent
  | deleteComplete (error : Option DriverError) : DevEvent
  | enrollProgress (stage : Nat) (error : Option DriverError) : DevEvent
deriving DecidableEq

/-- Result of one invocation of `cmd_recieve_cb`: the updated session,
the SSM action taken, whether the response-interpreter callback was
invoked, and the events it emitted. -/
structure RecvOut where
  session : Session
  action : SsmAction
  cbInvoked : Bool
  events : List DevEvent
deriving DecidableEq

/-- Outcome of `cmd_interrupt_cb`: jump, fail, advance, or resubmit the
interrupt read (the internal poll loop). -/
inductive InterruptOut where
  | jump (st : Nat) : InterruptOut
  | failed (e : DriverError) : InterruptOut
  | next : InterruptOut
  | resubmit : InterruptOut
deriving DecidableEq

/-- Action taken by the driver function `synaptics_cmd_run_state` when
entering a state. -/
inductive RunStateAct where
  /-- Submit the queued pending command transfer. -/
  | submitPending : RunStateAct
  /-- Advance synchronously (`fpi_ssm_next_state`). -/
  | next : RunStateAct
  /-- Submit the bulk response read. -/
  | submitResp : RunStateAct
  /-- Submit the cancellable interrupt read. -/
  | submitInterrupt : RunStateAct
  /-- Submit the SENSOR_CMD_ASYNCMSG_READ command. -/
  | submitAsync : RunStateAct
  /-- Jump (`fpi_ssm_jump_to_state`). -/
  | jump (st : Nat) : RunStateAct
  /-- No action (state outside the switch). -/
  | nop : RunStateAct
deriving DecidableEq

/-- Sequence-number logic of `synaptics_sensor_cmd` (lines 330-345).
Returns the updated session and the `real_seq_num` placed in the frame.
All stores into the one-byte counters are reduced mod 256, exactly as
the C assignments into `guint8` truncate. -/
def synaptics_sensor_cmd_seq (s : Session) (seq_num : Int) : Session × Nat :=
  if seq_num ≤ 0 then
    let v := max 1 (s.last_seq_num + 1)
    let l := v % 256
    ({ s with
       last_seq_num := l,
       cmd_seq_num := if seq_num = 0 then l else s.cmd_seq_num }, l)
  else
    let r := seq_num.toNat % 256
    ({ s with last_seq_num := r }, r)

/-- Session effect of a whole `synaptics_sensor_cmd` call: the sequence
assignment, then either a fire-and-forget submit (seq_num = -1, which
touches neither the pending slot nor the SSM) or queueing the command
and ensuring an SSM is active. -/
def synaptics_sensor_cmd (s : Session) (seq_num : Int) : Session :=
  let s1 := (synaptics_sensor_cmd_seq s seq_num).1
  if seq_num = -1 then s1
  else { s1 with cmd_pending_transfer := true, cmd_ssm := true }

/-- Stage-credit computation of `enroll_msg_cb` (BMKT_RSP_ENROLL_REPORT
branch): `done_stages = (progress * ENROLL_SAMPLES + 99) / 100`, clamped
to `ENROLL_SAMPLES - 1` while progress < 100.  `ENROLL_SAMPLES` is a
macro from the missing `synaptics.h` and is kept as the parameter `N`. -/
def done_stages (progress N : Nat) : Nat :=
  let d := (progress * N + 99) / 100
  if progress < 100 then min d (N - 1) else d

/-- Effect of the crediting while-loop of `enroll_msg_cb` on
`self->enroll_stage`: increment until it reaches `done`. -/
def enroll_stage_update (stage done : Nat) : Nat :=
  if stage < done then done else stage

/-- `verify_msg_cb`: the verification response interpreter.  Returns
the updated session and the emitted device events. -/
def verify_msg_cb (s : Session) (resp : Option BmktResponse)
    (error : Option DriverError) : Session × List DevEvent :=
  match error with
  | some e => (s, [DevEvent.verifyComplete (some e)])
  | none =>
    match resp with
    | none =>
      if s.cmd_complete_on_removal then (s, [DevEvent.verifyComplete none])
      else (s, [])
    | some r =>
      if r.response_id = BMKT_RSP_VERIFY_READY then (s, [])
      else if r.response_id = BMKT_RSP_CAPTURE_COMPLETE then (s, [])
      else if r.response_id = BMKT_RSP_VERIFY_FAIL then
        if r.result = BMKT_SENSOR_STIMULUS_ERROR then
          ({ s with
             cmd_complete_on_removal := true,
             cmd_complete_data := FPI_MATCH_ERROR,
             cmd_complete_error := some DriverError.retryGeneral }, [])
        else if r.result = BMKT_FP_NO_MATCH then
          ({ s with
             cmd_complete_on_removal := true,
             cmd_complete_data := FPI_MATCH_FAIL,
             cmd_complete_error := none }, [])
        else if r.result = BMKT_FP_DATABASE_NO_RECORD_EXISTS then
          (s, [DevEvent.verifyComplete (some DriverError.dataNotFound)])
        else
          (s, [DevEvent.verifyReport FPI_MATCH_FAIL,
               DevEvent.verifyComplete none])
      else if r.response_id = BMKT_RSP_VERIFY_OK then
        (s, [DevEvent.verifyReport FPI_MATCH_SUCCESS,
             DevEvent.verifyComplete none])
      else (s, [])

/-- `verify_msg_cb` as it is invoked from inside `cmd_recieve_cb`
(non-null response, null error). -/
def verifyRecvCb (s : Session) (r : BmktResponse) : Session × List DevEvent :=
  verify_msg_cb s (some r) none

/-- Continuation of `cmd_recieve_cb` after the finger-report special
case: payload parsing, cancellation handling, 0-sequence handling, the
interpreter callback and the final dispatch. -/
def cmd_recieve_after_header (s : Session)
    (cb : Option (Session → BmktResponse → Session × List DevEvent))
    (msg : MsgResp) (pay : Option BmktResponse) : RecvOut :=
  match pay with
  | none => ⟨s, SsmAction.failed DriverError.proto, false, []⟩
  | some resp =>
    if resp.response_id = BMKT_RSP_CANCEL_OP_OK then
      ⟨s, SsmAction.failed DriverError.ioCancelled, false, []⟩
    else if resp.response_id = BMKT_RSP_CANCEL_OP_FAIL then
      ⟨s, SsmAction.failed DriverError.proto, false, []⟩
    else if msg.seq_num = 0 then
      if msg.msg_id = BMKT_RSP_GENERAL_ERROR then
        ⟨s, SsmAction.failed (DriverError.protoGeneralError
              (256 * msg.payload.getD 0 0 + msg.payload.getD 1 0)), false, []⟩
      else
        ⟨s, SsmAction.nextState, false, []⟩
    else
      -- A sequence mismatch with cmd_seq_num is only logged.
      match cb with
      | some f =>
        let r := f s resp
        if r.1.cmd_pending_transfer then
          ⟨r.1, SsmAction.jumpTo SYNAPTICS_CMD_SEND_PENDING, true, r.2⟩
        else if !resp.complete || r.1.cmd_complete_on_removal then
          ⟨r.1, SsmAction.nextState, true, r.2⟩
        else
          ⟨r.1, SsmAction.completed, true, r.2⟩
      | none =>
        if s.cmd_pending_transfer then
          ⟨s, SsmAction.jumpTo SYNAPTICS_CMD_SEND_PENDING, false, []⟩
        else if !resp.complete || s.cmd_complete_on_removal then
          ⟨s, SsmAction.nextState, false, []⟩
        else
          ⟨s, SsmAction.completed, false, []⟩

/-- `cmd_recieve_cb`: the bulk-response completion callback.  Inputs are
the session, the stored interpreter callback, the transfer error, and
the results of `bmkt_parse_message_header` and
`bmkt_parse_message_payload` (both live in the missing bmkt sources and
are therefore taken as parsed inputs, `none` meaning parse failure). -/
def cmd_recieve_cb (s : Session)
    (cb : Option (Session → BmktResponse → Session × List DevEvent))
    (error : Option DriverError)
    (hdr : Option MsgResp) (pay : Option BmktResponse) : RecvOut :=
  match error with
  | some e => ⟨s, SsmAction.failed e, false, []⟩
  | none =>
    match hdr with
    | none => ⟨s, SsmAction.failed DriverError.proto, false, []⟩
    | some msg =>
      if msg.msg_id = BMKT_EVT_FINGER_REPORT then
        if msg.payload.length ≠ 1 then
          ⟨s, SsmAction.failed DriverError.proto, false, []⟩
        else if msg.payload.getD 0 0 = 1 then
          cmd_recieve_after_header { s with finger_on_sensor := true } cb msg pay
        else if s.cmd_complete_on_removal then
          ⟨{ s with finger_on_sensor := false }, SsmAction.completed, false, []⟩
        else
          cmd_recieve_after_header { s with finger_on_sensor := false } cb msg pay
      else
        cmd_recieve_after_header s cb msg pay

/-- `cmd_interrupt_cb`: the interrupt-read completion callback.  `buf0`
is the first byte of the interrupt data. -/
def cmd_interrupt_cb (error : Option DriverError) (buf0 : Nat) : InterruptOut :=
  match error with
  | some e =>
    if e = DriverError.ioCancelled then InterruptOut.jump SYNAPTICS_CMD_GET_RESP
    else InterruptOut.failed e
  | none =>
    -- The `|| error` in the C condition is dead: error is NULL here.
    if buf0 &&& USB_ASYNC_MESSAGE_PENDING ≠ 0 then InterruptOut.next
    else InterruptOut.resubmit

/-- `synaptics_cmd_run_state`: the driver function dispatching on the
current state. -/
def synaptics_cmd_run_state (s : Session) (st : Nat) : RunStateAct :=
  if st = SYNAPTICS_CMD_SEND_PENDING then
    if s.cmd_pending_transfer then RunStateAct.submitPending
    else RunStateAct.next
  else if st = SYNAPTICS_CMD_GET_RESP then RunStateAct.submitResp
  else if st = SYNAPTICS_CMD_WAIT_INTERRUPT then RunStateAct.submitInterrupt
  else if st = SYNAPTICS_CMD_SEND_ASYNC then RunStateAct.submitAsync
  else if st = SYNAPTICS_CMD_RESTART then
    RunStateAct.jump SYNAPTICS_CMD_SEND_PENDING
  else RunStateAct.nop

/-- `cmd_ssm_done`: terminal SSM callback.  On failure the interpreter
callback receives the error; on completion with deferred completion
armed it receives a null response together with the stored
`cmd_complete_error`; both flags are cleared afterwards. -/
def cmd_ssm_done (s : Session)
    (cb : Session → Option BmktResponse → Option DriverError →
          Session × List DevEvent)
    (error : Option DriverError) : Session × List DevEvent :=
  let s0 := { s with cmd_ssm := false }
  match error with
  | some e =>
    let r := cb s0 none (some e)
    ({ r.1 with cmd_complete_on_removal := false, cmd_complete_error := none },
     r.2)
  | none =>
    if s0.cmd_complete_on_removal then
      let r := cb s0 none s0.cmd_complete_error
      ({ r.1 with cmd_complete_on_removal := false, cmd_complete_error := none },
       r.2)
    else
      ({ s0 with cmd_complete_on_removal := false, cmd_complete_error := none },
       [])

/-- Terminal outcome of a run of responses. -/
inductive RunEnd where
  | failed (e : DriverError) : RunEnd
  | completed : RunEnd
deriving DecidableEq

/-- Feed a list of parsed frames (header and payload both parsed) one at
a time through `cmd_recieve_cb`, stopping at the first terminal action. -/
def runResponses (cb : Session → BmktResponse → Session × List DevEvent) :
    Session → List (MsgResp × BmktResponse) → Session × Option RunEnd
  | s, [] => (s, none)
  | s, (m, r) :: rest =>
    let o := cmd_recieve_cb s (some cb) none (some m) (some r)
    match o.action with
    | SsmAction.failed e => (o.session, some (RunEnd.failed e))
    | SsmAction.completed => (o.session, some RunEnd.completed)
    | _ => runResponses cb o.session rest

/-- A frame that neither terminates the run nor completes it: a
well-formed finger-on notice, or any parsed frame that is not a
cancellation response and not a 0-sequence general error. -/
def benignNotice (m : MsgResp) (r : BmktResponse) : Bool :=
  (decide (m.msg_id ≠ BMKT_EVT_FINGER_REPORT) || decide (m.payload = [1])) &&
  decide (r.response_id ≠ BMKT_RSP_CANCEL_OP_OK) &&
  decide (r.response_id ≠ BMKT_RSP_CANCEL_OP_FAIL) &&
  (decide (m.seq_num ≠ 0) || decide (m.msg_id ≠ BMKT_RSP_GENERAL_ERROR))

/-- The sensor-command calls that can occur between two sequence-number
assignments in this driver: the fire-and-forget cancellation send
(seq_num = -1, from `cancel`) and the continued-command send passing the
current `cmd_seq_num` (from `list_msg_cb`). -/
inductive InterOp where
  | cancelOp : InterOp
  | contOp : InterOp
deriving DecidableEq

/-- Session effect of one intervening sensor-command call. -/
def interStep (s : Session) (op : InterOp) : Session :=
  match op with
  | InterOp.cancelOp => (synaptics_sensor_cmd_seq s (-1)).1
  | InterOp.contOp => (synaptics_sensor_cmd_seq s (Int.ofNat s.cmd_seq_num)).1

/-- The one-byte counter stays below 255 at every point of a run of
intervening calls (so no store wraps), including the final state. -/
def noWrapRun : Session → List InterOp → Bool
  | s, [] => decide (s.last_seq_num < 255)
  | s, op :: rest =>
    decide (s.last_seq_num < 255) && noWrapRun (interStep s op) rest

/-- The print `fpi-data` GVariant as seen by `parse_print_data`:
whether it has the "(y@ay)" format, the finger byte, and the user id. -/
structure PrintData where
  isYayFormat : Bool
  finger : Nat
  user_id : List Nat
deriving DecidableEq

/-- `parse_print_data`: validates the stored print data, returning the
finger and user id on success. -/
def parse_print_data (data : Option PrintData) : Option (Nat × List Nat) :=
  match data with
  | none => none
  | some d =>
    if !d.isYayFormat then none
    else if d.user_id.length = 0 || decide (BMKT_MAX_USER_ID_LEN < d.user_id.length) then none
    else if d.user_id.length = 0 || d.user_id.getD 0 0 = 32 then none
    else some (d.finger, d.user_id)

/-- `verify` entry point: session after the call, emitted events, and
whether a command was composed and sent. -/
def verify (s : Session) (data : Option PrintData) :
    Session × List DevEvent × Bool :=
  match parse_print_data data with
  | none => (s, [DevEvent.verifyComplete (some DriverError.dataInvalid)], false)
  | some _ => (synaptics_sensor_cmd s 0, [], true)

/-- `delete_print` entry point: session after the call, emitted events,
and whether a command was composed and sent. -/
def delete_print (s : Session) (data : Option PrintData) :
    Session × List DevEvent × Bool :=
  match parse_print_data data with
  | none => (s, [DevEvent.deleteComplete (some DriverError.dataInvalid)], false)
  | some _ => (synaptics_sensor_cmd s 0, [], true)

/-! ## Helper lemmas -/

/-- The one-byte increment `MAX (1, last + 1)` does not wrap while the
counter is below 255, and the `MAX` with 1 is then the identity. -/
theorem seq_increment_no_wrap {l : Nat} (h : l < 255) :
    (max 1 (l + 1)) % 256 = l + 1 := by
  have h1 : max 1 (l + 1) = l + 1 := by omega
  rw [h1]
  exact Nat.mod_eq_of_lt (by omega)

/-- Effect of a sequence-number assignment (`seq_num = 0`). -/
theorem seq_zero_assign (s : Session) (h : s.last_seq_num < 255) :
    (synaptics_sensor_cmd_seq s 0).1.cmd_seq_num = s.last_seq_num + 1 ∧
    (synaptics_sensor_cmd_seq s 0).1.last_seq_num = s.last_seq_num + 1 := by
  unfold synaptics_sensor_cmd_seq
  simp [seq_increment_no_wrap h]
  omega

/-- Invariant of the intervening-call runs: the expected command
sequence number is untouched and stays below the (non-wrapping)
last-assigned counter. -/
theorem interRun_invariant (ops : List InterOp) : ∀ s : Session,
    1 ≤ s.cmd_seq_num → s.cmd_seq_num ≤ s.last_seq_num →
    noWrapRun s ops = true →
    (ops.foldl interStep s).cmd_seq_num = s.cmd_seq_num ∧
    (ops.foldl interStep s).cmd_seq_num ≤ (ops.foldl interStep s).last_seq_num ∧
    (ops.foldl interStep s).last_seq_num < 255 := by
  induction ops with
  | nil =>
    intro s h1 h2 h3
    simp only [noWrapRun, decide_eq_true_eq] at h3
    exact ⟨rfl, h2, h3⟩
  | cons op rest ih =>
    intro s h1 h2 h3
    simp only [noWrapRun, Bool.and_eq_true, decide_eq_true_eq] at h3
    obtain ⟨hw, h3⟩ := h3
    have hstep : (interStep s op).cmd_seq_num = s.cmd_seq_num ∧
        s.cmd_seq_num ≤ (interStep s op).last_seq_num := by
      cases op with
      | cancelOp =>
        unfold interStep synaptics_sensor_cmd_seq
        simp [seq_increment_no_wrap hw]
        omega
      | contOp =>
        have hpos : ¬ ((Int.ofNat s.cmd_seq_num) ≤ 0) := by
          simp only [Int.ofNat_eq_coe, not_le]
          exact_mod_cast h1
        have hred : interStep s InterOp.contOp =
            { s with last_seq_num := (Int.ofNat s.cmd_seq_num).toNat % 256 } := by
          unfold interStep synaptics_sensor_cmd_seq
          rw [if_neg hpos]
        rw [hred]
        have hv : (Int.ofNat s.cmd_seq_num).toNat = s.cmd_seq_num := rfl
        refine ⟨rfl, ?_⟩
        show s.cmd_seq_num ≤ (Int.ofNat s.cmd_seq_num).toNat % 256
        rw [hv, Nat.mod_eq_of_lt (by omega)]
    obtain ⟨hs1, hs2⟩ := hstep
    have hrec := ih (interStep s op) (by omega) (by omega) h3
    rw [List.foldl_cons]
    exact ⟨by rw [hrec.1, hs1], hrec.2.1, hrec.2.2⟩

/-! ## C1: effect of a fire-and-forget (`seq_num = -1`) send -/

/-- C1 (corrected): a `seq_num = -1` call does not leave `last_seq_num`
unchanged.  Starting from `last_seq_num = 5`, the call stores 6 into the
counter and places 6 (not the previously assigned 5) in the composed
frame. -/
theorem synaptics_seq_minus_one_cex :
    ((synaptics_sensor_cmd_seq ⟨5, 3, false, false, none, 0, false, false⟩
        (-1)).1.last_seq_num = 6) ∧
    ¬ ((synaptics_sensor_cmd_seq ⟨5, 3, false, false, none, 0, false, false⟩
        (-1)).1.last_seq_num =
      (⟨5, 3, false, false, none, 0, false, false⟩ : Session).last_seq_num) ∧
    ((synaptics_sensor_cmd_seq ⟨5, 3, false, false, none, 0, false, false⟩
        (-1)).2 = 6) := by
  decide

/-- C1 (amended): a `seq_num = -1` call leaves `cmd_seq_num` unchanged,
but increments `last_seq_num` to `MAX (1, last + 1)` (mod 256) and puts
that freshly incremented value into the composed frame; being a
fire-and-forget send it touches neither the pending-command slot nor the
state machine. -/
theorem synaptics_seq_minus_one_behavior (s : Session) :
    ((synaptics_sensor_cmd_seq s (-1)).1.cmd_seq_num = s.cmd_seq_num) ∧
    ((synaptics_sensor_cmd_seq s (-1)).1.last_seq_num =
      (max 1 (s.last_seq_num + 1)) % 256) ∧
    ((synaptics_sensor_cmd_seq s (-1)).2 =
      (max 1 (s.last_seq_num + 1)) % 256) ∧
    (synaptics_sensor_cmd s (-1)).cmd_pending_transfer =
      s.cmd_pending_transfer ∧
    (synaptics_sensor_cmd s (-1)).cmd_ssm = s.cmd_ssm := by
  unfold synaptics_sensor_cmd synaptics_sensor_cmd_seq
  norm_num

/-! ## C2: strict increase of assigned sequence numbers -/

/-- C2 (corrected): the assigned values are not strictly increasing in
general.  After the one-byte counter reaches 255, the next `seq_num = 0`
assignment stores `(255 + 1) % 256 = 0` into `cmd_seq_num`, which is not
greater than the previously assigned 255. -/
theorem synaptics_seq_zero_wrap_cex :
    ((synaptics_sensor_cmd_seq ⟨254, 200, false, false, none, 0, false, false⟩
        0).1.cmd_seq_num = 255) ∧
    ((synaptics_sensor_cmd_seq
        (synaptics_sensor_cmd_seq ⟨254, 200, false, false, none, 0, false, false⟩
          0).1 0).1.cmd_seq_num = 0) ∧
    ¬ (255 < (synaptics_sensor_cmd_seq
        (synaptics_sensor_cmd_seq ⟨254, 200, false, false, none, 0, false, false⟩
          0).1 0).1.cmd_seq_num) := by
  decide

/-- C2 (amended): across a session, consecutive `seq_num = 0`
assignments store strictly increasing values into `cmd_seq_num` as long
as the one-byte counter does not wrap, for any number of intervening
fire-and-forget (`-1`) or continued-command (current `cmd_seq_num`)
sends; when the counter would pass 255 the stored value wraps to 0. -/
theorem synaptics_seq_zero_strict_increase (s : Session) (ops : List InterOp)
    (h0 : s.last_seq_num < 255)
    (hw : noWrapRun ((synaptics_sensor_cmd_seq s 0).1) ops = true) :
    ((synaptics_sensor_cmd_seq s 0).1).cmd_seq_num <
      ((synaptics_sensor_cmd_seq
        (ops.foldl interStep ((synaptics_sensor_cmd_seq s 0).1)) 0).1).cmd_seq_num := by
  obtain ⟨hc1, hl1⟩ := seq_zero_assign s h0
  have hinv := interRun_invariant ops ((synaptics_sensor_cmd_seq s 0).1)
      (by omega) (by omega) hw
  obtain ⟨hc2, hl2, hw2⟩ := hinv
  obtain ⟨hc3, _⟩ := seq_zero_assign
      (ops.foldl interStep ((synaptics_sensor_cmd_seq s 0).1)) hw2
  omega

/-- C2 witness: concrete strict increase with one cancellation and one
continued-command send in between. -/
theorem synaptics_seq_zero_strict_increase_witness :
    ((⟨10, 4, false, false, none, 0, false, false⟩ : Session).last_seq_num < 255) ∧
    (noWrapRun ((synaptics_sensor_cmd_seq
        ⟨10, 4, false, false, none, 0, false, false⟩ 0).1)
      [InterOp.cancelOp, InterOp.contOp] = true) ∧
    (((synaptics_sensor_cmd_seq ⟨10, 4, false, false, none, 0, false, false⟩
        0).1).cmd_seq_num <
      ((synaptics_sensor_cmd_seq
        ([InterOp.cancelOp, InterOp.contOp].foldl interStep
          ((synaptics_sensor_cmd_seq ⟨10, 4, false, false, none, 0, false, false⟩
            0).1)) 0).1).cmd_seq_num) :=
  ⟨by decide, by decide,
    synaptics_seq_zero_strict_increase _ _ (by decide) (by decide)⟩

/-! ## C3: enrollment stage crediting -/

/-- C3: for a reported percentage `p ≤ 100` and `N = ENROLL_SAMPLES ≥ 1`
samples, `enroll_msg_cb` credits `(p * N + 99) / 100` stages, which is
exactly `ceil (p * N / 100)` (characterized as the least value whose
product with 100 reaches `p * N`), clamped to `N - 1` while `p < 100`;
the credited stage counter is monotonically non-decreasing and never
exceeds `N - 1` before a 100% report, and at `p = 100` the credit is the
full `N`. -/
theorem enroll_stage_crediting (p N stage : Nat) (hN : 1 ≤ N) (hp : p ≤ 100) :
    (p * N ≤ 100 * ((p * N + 99) / 100) ∧
      100 * ((p * N + 99) / 100) < p * N + 100) ∧
    done_stages p N =
      (if p < 100 then min ((p * N + 99) / 100) (N - 1)
       else (p * N + 99) / 100) ∧
    stage ≤ enroll_stage_update stage (done_stages p N) ∧
    (p < 100 → done_stages p N ≤ N - 1) ∧
    (p < 100 → stage ≤ N - 1 →
      enroll_stage_update stage (done_stages p N) ≤ N - 1) ∧
    (p = 100 → done_stages p N = N) := by
  have hdm := Nat.div_add_mod (p * N + 99) 100
  have hmlt := Nat.mod_lt (p * N + 99) (show 0 < 100 by omega)
  have hbound : p < 100 → done_stages p N ≤ N - 1 := by
    intro h
    unfold done_stages
    simp only [h, if_true]
    exact Nat.min_le_right _ _
  refine ⟨⟨by omega, by omega⟩, rfl, ?_, hbound, ?_, ?_⟩
  · unfold enroll_stage_update
    split <;> omega
  · intro h hs
    have := hbound h
    unfold enroll_stage_update
    split <;> omega
  · intro h
    subst h
    unfold done_stages
    simp only [Nat.lt_irrefl, if_false]
    rw [Nat.mul_add_div (show (0 : Nat) < 100 by omega) N 99]
    norm_num

/-- C3 witness: with `N = 5`, a 40% report credits stage 2 and a 90%
report credits stage 4 (clamped at `N - 1`). -/
theorem enroll_stage_crediting_witness :
    ((1 ≤ 5 ∧ 40 ≤ 100) ∧
      (40 * 5 ≤ 100 * ((40 * 5 + 99) / 100) ∧
        100 * ((40 * 5 + 99) / 100) < 40 * 5 + 100) ∧
      done_stages 40 5 =
        (if 40 < 100 then min ((40 * 5 + 99) / 100) (5 - 1)
         else (40 * 5 + 99) / 100) ∧
      0 ≤ enroll_stage_update 0 (done_stages 40 5) ∧
      (40 < 100 → done_stages 40 5 ≤ 5 - 1) ∧
      (40 < 100 → 0 ≤ 5 - 1 →
        enroll_stage_update 0 (done_stages 40 5) ≤ 5 - 1) ∧
      (40 = 100 → done_stages 40 5 = 5)) ∧
    done_stages 40 5 = 2 ∧ done_stages 90 5 = 4 ∧
    enroll_stage_update 2 (done_stages 90 5) = 4 :=
  ⟨⟨⟨by decide, by decide⟩,
    (enroll_stage_crediting 40 5 0 (by decide) (by decide)).1,
    (enroll_stage_crediting 40 5 0 (by decide) (by decide)).2.1,
    (enroll_stage_crediting 40 5 0 (by decide) (by decide)).2.2.1,
    (enroll_stage_crediting 40 5 0 (by decide) (by decide)).2.2.2.1,
    (enroll_stage_crediting 40 5 0 (by decide) (by decide)).2.2.2.2.1,
    (enroll_stage_crediting 40 5 0 (by decide) (by decide)).2.2.2.2.2⟩,
   by decide, by decide, by decide⟩

/-! ## C10: rejection of invalid stored print data -/

/-- C10: a verify or delete request whose stored print data has the
wrong variant format, an empty user id, a user id longer than
`BMKT_MAX_USER_ID_LEN`, or a user id starting with a space byte, fails
`parse_print_data` and completes immediately with a data-invalid error;
no command is composed or sent and the session (sequence counters,
pending-command slot and state machine included) is unchanged. -/
theorem invalid_print_data_rejected (s : Session) (d : PrintData)
    (h : d.isYayFormat = false ∨ d.user_id.length = 0 ∨
      BMKT_MAX_USER_ID_LEN < d.user_id.length ∨ d.user_id.getD 0 0 = 32) :
    parse_print_data (some d) = none ∧
    verify s (some d) =
      (s, [DevEvent.verifyComplete (some DriverError.dataInvalid)], false) ∧
    delete_print s (some d) =
      (s, [DevEvent.deleteComplete (some DriverError.dataInvalid)], false) := by
  have hp : parse_print_data (some d) = none := by
    simp only [parse_print_data]
    split_ifs with h1 h2 h3
    · rfl
    · rfl
    · rfl
    · exfalso
      simp only [Bool.not_eq_true'] at h1
      simp only [Bool.or_eq_true, decide_eq_true_eq, not_or] at h2 h3
      rcases h with h | h | h | h
      · exact absurd h1 (by simp [h])
      · exact absurd h h2.1
      · exact absurd h h2.2
      · exact absurd h h3.2
  refine ⟨hp, ?_, ?_⟩
  · unfold verify
    rw [hp]
  · unfold delete_print
    rw [hp]

/-- C10 witness: a user id starting with a space byte is rejected. -/
theorem invalid_print_data_rejected_witness :
    (((⟨true, 1, [32, 65]⟩ : PrintData).isYayFormat = false ∨
      (⟨true, 1, [32, 65]⟩ : PrintData).user_id.length = 0 ∨
      BMKT_MAX_USER_ID_LEN < (⟨true, 1, [32, 65]⟩ : PrintData).user_id.length ∨
      (⟨true, 1, [32, 65]⟩ : PrintData).user_id.getD 0 0 = 32)) ∧
    (parse_print_data (some ⟨true, 1, [32, 65]⟩) = none ∧
     verify ⟨7, 7, false, false, none, 0, false, false⟩ (some ⟨true, 1, [32, 65]⟩) =
       (⟨7, 7, false, false, none, 0, false, false⟩,
        [DevEvent.verifyComplete (some DriverError.dataInvalid)], false) ∧
     delete_print ⟨7, 7, false, false, none, 0, false, false⟩
        (some ⟨true, 1, [32, 65]⟩) =
       (⟨7, 7, false, false, none, 0, false, false⟩,
        [DevEvent.deleteComplete (some DriverError.dataInvalid)], false)) :=
  ⟨by decide, invalid_print_data_rejected _ _ (by decide)⟩

/-- Reduction of `cmd_recieve_cb` to `cmd_recieve_after_header` when the
finger-report special case does not terminate the run: the header
handling only (possibly) updates `finger_on_sensor`. -/
theorem cmd_recieve_cb_to_after (s : Session)
    (cb : Option (Session → BmktResponse → Session × List DevEvent))
    (msg : MsgResp) (pay : Option BmktResponse)
    (hfing : msg.msg_id = BMKT_EVT_FINGER_REPORT →
      (msg.payload = [1] ∨
        (msg.payload = [0] ∧ s.cmd_complete_on_removal = false))) :
    ∃ s' : Session,
      cmd_recieve_cb s cb none (some msg) pay =
        cmd_recieve_after_header s' cb msg pay ∧
      s'.cmd_complete_on_removal = s.cmd_complete_on_removal ∧
      s'.cmd_pending_transfer = s.cmd_pending_transfer ∧
      s'.cmd_seq_num = s.cmd_seq_num ∧
      s'.last_seq_num = s.last_seq_num ∧
      s'.cmd_complete_error = s.cmd_complete_error ∧
      s'.cmd_complete_data = s.cmd_complete_data := by
  by_cases hm : msg.msg_id = BMKT_EVT_FINGER_REPORT
  · rcases hfing hm with h | ⟨h, harm⟩
    · refine ⟨{ s with finger_on_sensor := true }, ?_, rfl, rfl, rfl, rfl, rfl, rfl⟩
      simp only [cmd_recieve_cb]
      rw [if_pos hm, if_neg (by simp [h]), if_pos (by simp [h])]
    · refine ⟨{ s with finger_on_sensor := false }, ?_, rfl, rfl, rfl, rfl, rfl, rfl⟩
      simp only [cmd_recieve_cb]
      rw [if_pos hm, if_neg (by simp [h]), if_neg (by simp [h]),
        if_neg (by simp [harm])]
  · refine ⟨s, ?_, rfl, rfl, rfl, rfl, rfl, rfl⟩
    simp only [cmd_recieve_cb]
    rw [if_neg hm]

/-- `cmd_recieve_after_header` on a cancellation response: the run is
failed without invoking the callback. -/
theorem after_header_cancel (s : Session)
    (cb : Option (Session → BmktResponse → Session × List DevEvent))
    (msg : MsgResp) (resp : BmktResponse)
    (h : resp.response_id = BMKT_RSP_CANCEL_OP_OK ∨
      resp.response_id = BMKT_RSP_CANCEL_OP_FAIL) :
    cmd_recieve_after_header s cb msg (some resp) =
      ⟨s,
       if resp.response_id = BMKT_RSP_CANCEL_OP_OK then
         SsmAction.failed DriverError.ioCancelled
       else SsmAction.failed DriverError.proto,
       false, []⟩ := by
  simp only [cmd_recieve_after_header]
  rcases h with h | h
  · rw [if_pos h, if_pos h]
  · have hne : resp.response_id ≠ BMKT_RSP_CANCEL_OP_OK := by
      rw [h]; decide
    rw [if_neg hne, if_pos h, if_neg hne]

/-- `cmd_recieve_after_header` on a 0-sequence non-cancellation frame:
general errors fail the run with the big-endian error code; everything
else is ignored and the machine advances.  The callback is never
invoked. -/
theorem after_header_seq_zero (s : Session)
    (cb : Option (Session → BmktResponse → Session × List DevEvent))
    (msg : MsgResp) (resp : BmktResponse)
    (hseq : msg.seq_num = 0)
    (hc1 : resp.response_id ≠ BMKT_RSP_CANCEL_OP_OK)
    (hc2 : resp.response_id ≠ BMKT_RSP_CANCEL_OP_FAIL) :
    cmd_recieve_after_header s cb msg (some resp) =
      ⟨s,
       if msg.msg_id = BMKT_RSP_GENERAL_ERROR then
         SsmAction.failed (DriverError.protoGeneralError
           (256 * msg.payload.getD 0 0 + msg.payload.getD 1 0))
       else SsmAction.nextState,
       false, []⟩ := by
  simp only [cmd_recieve_after_header]
  rw [if_neg hc1, if_neg hc2, if_pos hseq]
  split <;> rfl

/-- `cmd_recieve_after_header` on a correlated (non-zero sequence)
response: the callback runs and the final dispatch is decided by the
post-callback session and the response's complete flag. -/
theorem after_header_callback (s : Session)
    (cb : Session → BmktResponse → Session × List DevEvent)
    (msg : MsgResp) (resp : BmktResponse)
    (hc1 : resp.response_id ≠ BMKT_RSP_CANCEL_OP_OK)
    (hc2 : resp.response_id ≠ BMKT_RSP_CANCEL_OP_FAIL)
    (hseq : msg.seq_num ≠ 0) :
    cmd_recieve_after_header s (some cb) msg (some resp) =
      ⟨(cb s resp).1,
       if (cb s resp).1.cmd_pending_transfer then
         SsmAction.jumpTo SYNAPTICS_CMD_SEND_PENDING
       else if (!resp.complete || (cb s resp).1.cmd_complete_on_removal) then
         SsmAction.nextState
       else SsmAction.completed,
       true, (cb s resp).2⟩ := by
  simp only [cmd_recieve_after_header]
  rw [if_neg hc1, if_neg hc2, if_neg hseq]
  by_cases h1 : (cb s resp).1.cmd_pending_transfer
  · simp [h1]
  · by_cases h2 : (!resp.complete || (cb s resp).1.cmd_complete_on_removal) = true
    · simp [h1, h2]
    · simp [h1, h2]

/-! ## C7: 0-sequence frames -/

/-- C7: a received frame with sequence number 0 that is not a
cancellation response and not a finger event triggering deferred
completion either fails the run with a protocol error carrying the
16-bit big-endian error code from the payload (when its message id is
the general-error id), or is ignored: the machine advances to the next
state without invoking the response-interpreter callback. -/
theorem seq_zero_general_error_handling (s : Session)
    (cb : Session → BmktResponse → Session × List DevEvent)
    (msg : MsgResp) (resp : BmktResponse)
    (hseq : msg.seq_num = 0)
    (hc1 : resp.response_id ≠ BMKT_RSP_CANCEL_OP_OK)
    (hc2 : resp.response_id ≠ BMKT_RSP_CANCEL_OP_FAIL)
    (hfing : msg.msg_id = BMKT_EVT_FINGER_REPORT →
      (msg.payload = [1] ∨
        (msg.payload = [0] ∧ s.cmd_complete_on_removal = false))) :
    (msg.msg_id = BMKT_RSP_GENERAL_ERROR →
      (cmd_recieve_cb s (some cb) none (some msg) (some resp)).action =
        SsmAction.failed (DriverError.protoGeneralError
          (256 * msg.payload.getD 0 0 + msg.payload.getD 1 0))) ∧
    (msg.msg_id ≠ BMKT_RSP_GENERAL_ERROR →
      (cmd_recieve_cb s (some cb) none (some msg) (some resp)).action =
        SsmAction.nextState) ∧
    (cmd_recieve_cb s (some cb) none (some msg) (some resp)).cbInvoked =
      false ∧
    (cmd_recieve_cb s (some cb) none (some msg) (some resp)).events = [] := by
  obtain ⟨s', heq, -⟩ := cmd_recieve_cb_to_after s (some cb) msg (some resp) hfing
  rw [heq, after_header_seq_zero s' (some cb) msg resp hseq hc1 hc2]
  refine ⟨fun h => ?_, fun h => ?_, ?_, ?_⟩
  · simp [h]
  · simp [h]
  · rfl
  · rfl

/-- C7 witness: a stray 0-sequence info frame is ignored, while a
0-sequence general-error frame with payload bytes 1, 2 fails the run
with code 258. -/
theorem seq_zero_general_error_handling_witness :
    ((⟨7, 0, [9]⟩ : MsgResp).seq_num = 0 ∧
      (⟨7, 0, [9]⟩ : MsgResp).msg_id ≠ BMKT_RSP_GENERAL_ERROR ∧
      (cmd_recieve_cb ⟨1, 1, false, false, none, 0, false, true⟩
        (some (fun s _ => (s, []))) none (some ⟨7, 0, [9]⟩)
        (some ⟨5, 0, true, 0⟩)).action = SsmAction.nextState) ∧
    (cmd_recieve_cb ⟨1, 1, false, false, none, 0, false, true⟩
        (some (fun s _ => (s, []))) none
        (some ⟨BMKT_RSP_GENERAL_ERROR, 0, [1, 2]⟩)
        (some ⟨5, 0, true, 0⟩)).action =
      SsmAction.failed (DriverError.protoGeneralError 258) :=
  ⟨⟨rfl, by decide,
    ((seq_zero_general_error_handling ⟨1, 1, false, false, none, 0, false, true⟩
      (fun s _ => (s, [])) ⟨7, 0, [9]⟩ ⟨5, 0, true, 0⟩ rfl (by decide) (by decide)
      (by intro h; exact absurd h (by decide))).2.1 (by decide))⟩,
   ((seq_zero_general_error_handling ⟨1, 1, false, false, none, 0, false, true⟩
      (fun s _ => (s, [])) ⟨BMKT_RSP_GENERAL_ERROR, 0, [1, 2]⟩ ⟨5, 0, true, 0⟩
      rfl (by decide) (by decide)
      (by intro h; exact absurd h (by decide))).1 rfl)⟩

/-! ## C8: cancellation responses -/

/-- C8: a parsed response whose `response_id` is the
cancellation-acknowledged id fails the run with a cancelled error, and
one with the cancellation-failed id fails it with a protocol error; in
both cases the response-interpreter callback is not invoked. -/
theorem cancel_response_handling (s : Session)
    (cb : Session → BmktResponse → Session × List DevEvent)
    (msg : MsgResp) (resp : BmktResponse)
    (h : resp.response_id = BMKT_RSP_CANCEL_OP_OK ∨
      resp.response_id = BMKT_RSP_CANCEL_OP_FAIL)
    (hfing : msg.msg_id = BMKT_EVT_FINGER_REPORT →
      (msg.payload = [1] ∨
        (msg.payload = [0] ∧ s.cmd_complete_on_removal = false))) :
    (cmd_recieve_cb s (some cb) none (some msg) (some resp)).cbInvoked =
      false ∧
    (cmd_recieve_cb s (some cb) none (some msg) (some resp)).events = [] ∧
    (cmd_recieve_cb s (some cb) none (some msg) (some resp)).action =
      (if resp.response_id = BMKT_RSP_CANCEL_OP_OK then
        SsmAction.failed DriverError.ioCancelled
       else SsmAction.failed DriverError.proto) := by
  obtain ⟨s', heq, -⟩ := cmd_recieve_cb_to_after s (some cb) msg (some resp) hfing
  rw [heq, after_header_cancel s' (some cb) msg resp h]
  exact ⟨rfl, rfl, rfl⟩

/-- C8 witness: concrete cancellation-acknowledged and
cancellation-failed responses. -/
theorem cancel_response_handling_witness :
    ((cmd_recieve_cb ⟨1, 1, false, false, none, 0, false, true⟩
        (some (fun s _ => (s, []))) none (some ⟨7, 1, []⟩)
        (some ⟨BMKT_RSP_CANCEL_OP_OK, 0, true, 0⟩)).action =
      SsmAction.failed DriverError.ioCancelled) ∧
    ((cmd_recieve_cb ⟨1, 1, false, false, none, 0, false, true⟩
        (some (fun s _ => (s, []))) none (some ⟨7, 1, []⟩)
        (some ⟨BMKT_RSP_CANCEL_OP_FAIL, 0, true, 0⟩)).action =
      SsmAction.failed DriverError.proto) ∧
    ((cmd_recieve_cb ⟨1, 1, false, false, none, 0, false, true⟩
        (some (fun s _ => (s, []))) none (some ⟨7, 1, []⟩)
        (some ⟨BMKT_RSP_CANCEL_OP_OK, 0, true, 0⟩)).cbInvoked = false) :=
  ⟨by
    have h := (cancel_response_handling ⟨1, 1, false, false, none, 0, false, true⟩
      (fun s _ => (s, [])) ⟨7, 1, []⟩ ⟨BMKT_RSP_CANCEL_OP_OK, 0, true, 0⟩
      (Or.inl rfl) (by intro h; exact absurd h (by decide))).2.2
    simpa using h,
   by
    have h := (cancel_response_handling ⟨1, 1, false, false, none, 0, false, true⟩
      (fun s _ => (s, [])) ⟨7, 1, []⟩ ⟨BMKT_RSP_CANCEL_OP_FAIL, 0, true, 0⟩
      (Or.inr rfl) (by intro h; exact absurd h (by decide))).2.2
    simpa using h,
   (cancel_response_handling ⟨1, 1, false, false, none, 0, false, true⟩
      (fun s _ => (s, [])) ⟨7, 1, []⟩ ⟨BMKT_RSP_CANCEL_OP_OK, 0, true, 0⟩
      (Or.inl rfl) (by intro h; exact absurd h (by decide))).1⟩

/-! ## C4: dispatch after the response-interpreter callback -/

/-- C4: for a response delivered to the response-interpreter callback
(non-zero sequence, no cancellation, no finger event), the next step is:
jump to Send-Pending if the callback queued a new outgoing command;
otherwise advance to Wait-Interrupt (the state after Get-Response) if
the response's complete flag is false or deferred completion is armed;
otherwise mark the run completed.  A response with `complete = false`
never leads to immediate completion. -/
theorem response_dispatch_after_callback (s : Session)
    (cb : Session → BmktResponse → Session × List DevEvent)
    (msg : MsgResp) (resp : BmktResponse)
    (hfing : msg.msg_id ≠ BMKT_EVT_FINGER_REPORT)
    (hc1 : resp.response_id ≠ BMKT_RSP_CANCEL_OP_OK)
    (hc2 : resp.response_id ≠ BMKT_RSP_CANCEL_OP_FAIL)
    (hseq : msg.seq_num ≠ 0) :
    (cmd_recieve_cb s (some cb) none (some msg) (some resp)).cbInvoked =
      true ∧
    (cmd_recieve_cb s (some cb) none (some msg) (some resp)).session =
      (cb s resp).1 ∧
    (cmd_recieve_cb s (some cb) none (some msg) (some resp)).events =
      (cb s resp).2 ∧
    (cmd_recieve_cb s (some cb) none (some msg) (some resp)).action =
      (if (cb s resp).1.cmd_pending_transfer then
        SsmAction.jumpTo SYNAPTICS_CMD_SEND_PENDING
       else if (!resp.complete || (cb s resp).1.cmd_complete_on_removal) then
        SsmAction.nextState
       else SsmAction.completed) ∧
    (resp.complete = false →
      (cmd_recieve_cb s (some cb) none (some msg) (some resp)).action ≠
        SsmAction.completed) ∧
    SYNAPTICS_CMD_GET_RESP + 1 = SYNAPTICS_CMD_WAIT_INTERRUPT := by
  have heq : cmd_recieve_cb s (some cb) none (some msg) (some resp) =
      cmd_recieve_after_header s (some cb) msg (some resp) := by
    simp only [cmd_recieve_cb]
    rw [if_neg hfing]
  rw [heq, after_header_callback s cb msg resp hc1 hc2 hseq]
  refine ⟨rfl, rfl, rfl, rfl, fun h => ?_, rfl⟩
  by_cases h1 : (cb s resp).1.cmd_pending_transfer
  · simp [h1]
  · simp [h1, h]

/-- C4 witness: an incomplete response with nothing queued advances to
Wait-Interrupt, and the callback is invoked. -/
theorem response_dispatch_after_callback_witness :
    ((cmd_recieve_cb ⟨3, 3, false, false, none, 0, false, true⟩
        (some (fun s _ => (s, []))) none (some ⟨40, 3, []⟩)
        (some ⟨41, 0, false, 0⟩)).cbInvoked = true) ∧
    ((cmd_recieve_cb ⟨3, 3, false, false, none, 0, false, true⟩
        (some (fun s _ => (s, []))) none (some ⟨40, 3, []⟩)
        (some ⟨41, 0, false, 0⟩)).action = SsmAction.nextState) ∧
    ((cmd_recieve_cb ⟨3, 3, false, false, none, 0, false, true⟩
        (some (fun s _ => (s, []))) none (some ⟨40, 3, []⟩)
        (some ⟨41, 0, false, 0⟩)).action ≠ SsmAction.completed) :=
  ⟨(response_dispatch_after_callback ⟨3, 3, false, false, none, 0, false, true⟩
      (fun s _ => (s, [])) ⟨40, 3, []⟩ ⟨41, 0, false, 0⟩
      (by decide) (by decide) (by decide) (by decide)).1,
   by
    have h := (response_dispatch_after_callback
      ⟨3, 3, false, false, none, 0, false, true⟩
      (fun s _ => (s, [])) ⟨40, 3, []⟩ ⟨41, 0, false, 0⟩
      (by decide) (by decide) (by decide) (by decide)).2.2.2.1
    simpa using h,
   (response_dispatch_after_callback ⟨3, 3, false, false, none, 0, false, true⟩
      (fun s _ => (s, [])) ⟨40, 3, []⟩ ⟨41, 0, false, 0⟩
      (by decide) (by decide) (by decide) (by decide)).2.2.2.2.1 rfl⟩

/-- Evaluation of `verify_msg_cb` on a retryable sensor-stimulus verify
failure: deferral armed with FPI_MATCH_ERROR and a retry error, no
events. -/
theorem verify_cb_stimulus (s : Session) (r : BmktResponse)
    (h1 : r.response_id = BMKT_RSP_VERIFY_FAIL)
    (h2 : r.result = BMKT_SENSOR_STIMULUS_ERROR) :
    verify_msg_cb s (some r) none =
      ({ s with
         cmd_complete_on_removal := true,
         cmd_complete_data := FPI_MATCH_ERROR,
         cmd_complete_error := some DriverError.retryGeneral }, []) := by
  simp only [verify_msg_cb]
  rw [if_neg (by rw [h1]; decide), if_neg (by rw [h1]; decide), if_pos h1,
    if_pos h2]

/-- Evaluation of `verify_msg_cb` on a no-match verify failure:
deferral armed with FPI_MATCH_FAIL and a null error, no events. -/
theorem verify_cb_no_match (s : Session) (r : BmktResponse)
    (h1 : r.response_id = BMKT_RSP_VERIFY_FAIL)
    (h2 : r.result = BMKT_FP_NO_MATCH) :
    verify_msg_cb s (some r) none =
      ({ s with
         cmd_complete_on_removal := true,
         cmd_complete_data := FPI_MATCH_FAIL,
         cmd_complete_error := none }, []) := by
  simp only [verify_msg_cb]
  rw [if_neg (by rw [h1]; decide), if_neg (by rw [h1]; decide), if_pos h1,
    if_neg (by rw [h2]; decide), if_pos h2]

/-- `cmd_ssm_done` on a completed run with deferred completion armed and
a null stored error invokes `verify_msg_cb` with a null response and a
null error, which completes the verify operation without error. -/
theorem ssm_done_armed_verify (s : Session)
    (h1 : s.cmd_complete_on_removal = true)
    (h2 : s.cmd_complete_error = none) :
    (cmd_ssm_done s verify_msg_cb none).2 = [DevEvent.verifyComplete none] := by
  simp only [cmd_ssm_done]
  have hs0 : ({ s with cmd_ssm := false } : Session).cmd_complete_on_removal =
      true := h1
  have he : ({ s with cmd_ssm := false } : Session).cmd_complete_error =
      none := h2
  rw [if_pos hs0, he]
  simp only [verify_msg_cb]
  rw [if_pos hs0]

/-! ## C9: armed no-match deferral completes silently -/

/-- C9: arming deferred completion for a no-match result stores a null
`cmd_complete_error` and `FPI_MATCH_FAIL` in `cmd_complete_data`; the
eventual completion on finger removal invokes the terminal callback with
a null response and a null error, so the verify operation completes with
no error and no match report; the stored `cmd_complete_data` is never
read back (replacing it by any value leaves the outcome unchanged). -/
theorem no_match_deferred_completion_silent (s : Session) (r : BmktResponse)
    (d : Nat)
    (h1 : r.response_id = BMKT_RSP_VERIFY_FAIL)
    (h2 : r.result = BMKT_FP_NO_MATCH) :
    (verify_msg_cb s (some r) none).2 = [] ∧
    (verify_msg_cb s (some r) none).1.cmd_complete_on_removal = true ∧
    (verify_msg_cb s (some r) none).1.cmd_complete_error = none ∧
    (verify_msg_cb s (some r) none).1.cmd_complete_data = FPI_MATCH_FAIL ∧
    (cmd_ssm_done (verify_msg_cb s (some r) none).1 verify_msg_cb none).2 =
      [DevEvent.verifyComplete none] ∧
    (cmd_ssm_done
        { (verify_msg_cb s (some r) none).1 with cmd_complete_data := d }
        verify_msg_cb none).2 = [DevEvent.verifyComplete none] ∧
    (∀ ev ∈ (cmd_ssm_done (verify_msg_cb s (some r) none).1
        verify_msg_cb none).2, ∀ m : Nat, ev ≠ DevEvent.verifyReport m) := by
  rw [verify_cb_no_match s r h1 h2]
  refine ⟨rfl, rfl, rfl, rfl, ssm_done_armed_verify _ rfl rfl,
    ssm_done_armed_verify _ rfl rfl, ?_⟩
  rw [ssm_done_armed_verify _ rfl rfl]
  intro ev hev m
  simp only [List.mem_singleton] at hev
  subst hev
  simp

/-- C9 witness: concrete no-match deferral and completion. -/
theorem no_match_deferred_completion_silent_witness :
    ((⟨BMKT_RSP_VERIFY_FAIL, BMKT_FP_NO_MATCH, true, 0⟩ :
        BmktResponse).response_id = BMKT_RSP_VERIFY_FAIL) ∧
    ((verify_msg_cb ⟨3, 3, true, false, none, 0, false, true⟩
        (some ⟨BMKT_RSP_VERIFY_FAIL, BMKT_FP_NO_MATCH, true, 0⟩) none).2 = [] ∧
      (verify_msg_cb ⟨3, 3, true, false, none, 0, false, true⟩
        (some ⟨BMKT_RSP_VERIFY_FAIL, BMKT_FP_NO_MATCH, true, 0⟩)
        none).1.cmd_complete_on_removal = true ∧
      (verify_msg_cb ⟨3, 3, true, false, none, 0, false, true⟩
        (some ⟨BMKT_RSP_VERIFY_FAIL, BMKT_FP_NO_MATCH, true, 0⟩)
        none).1.cmd_complete_error = none ∧
      (verify_msg_cb ⟨3, 3, true, false, none, 0, false, true⟩
        (some ⟨BMKT_RSP_VERIFY_FAIL, BMKT_FP_NO_MATCH, true, 0⟩)
        none).1.cmd_complete_data = FPI_MATCH_FAIL ∧
      (cmd_ssm_done (verify_msg_cb ⟨3, 3, true, false, none, 0, false, true⟩
          (some ⟨BMKT_RSP_VERIFY_FAIL, BMKT_FP_NO_MATCH, true, 0⟩) none).1
          verify_msg_cb none).2 = [DevEvent.verifyComplete none] ∧
      (cmd_ssm_done
          { (verify_msg_cb ⟨3, 3, true, false, none, 0, false, true⟩
              (some ⟨BMKT_RSP_VERIFY_FAIL, BMKT_FP_NO_MATCH, true, 0⟩) none).1
            with cmd_complete_data := 77 }
          verify_msg_cb none).2 = [DevEvent.verifyComplete none] ∧
      (∀ ev ∈ (cmd_ssm_done (verify_msg_cb ⟨3, 3, true, false, none, 0, false, true⟩
          (some ⟨BMKT_RSP_VERIFY_FAIL, BMKT_FP_NO_MATCH, true, 0⟩) none).1
          verify_msg_cb none).2, ∀ m : Nat, ev ≠ DevEvent.verifyReport m)) :=
  ⟨rfl, no_match_deferred_completion_silent
    ⟨3, 3, true, false, none, 0, false, true⟩
    ⟨BMKT_RSP_VERIFY_FAIL, BMKT_FP_NO_MATCH, true, 0⟩ 77 rfl rfl⟩

/-- Jump targets of `cmd_recieve_after_header`: the only jump is to
Send-Pending. -/
theorem after_header_jump_target (s : Session)
    (cb : Option (Session → BmktResponse → Session × List DevEvent))
    (msg : MsgResp) (pay : Option BmktResponse) (t : Nat)
    (h : (cmd_recieve_after_header s cb msg pay).action = SsmAction.jumpTo t) :
    t = SYNAPTICS_CMD_SEND_PENDING := by
  cases pay with
  | none => simp [cmd_recieve_after_header] at h
  | some resp =>
    cases cb with
    | none =>
      simp only [cmd_recieve_after_header] at h
      split_ifs at h <;> simp_all
    | some f =>
      simp only [cmd_recieve_after_header] at h
      split_ifs at h <;> simp_all

/-- Jump targets of `cmd_recieve_cb`: the only jump is to Send-Pending. -/
theorem recv_jump_target (s : Session)
    (cb : Option (Session → BmktResponse → Session × List DevEvent))
    (error : Option DriverError) (hdr : Option MsgResp)
    (pay : Option BmktResponse) (t : Nat)
    (h : (cmd_recieve_cb s cb error hdr pay).action = SsmAction.jumpTo t) :
    t = SYNAPTICS_CMD_SEND_PENDING := by
  cases error with
  | some e => simp [cmd_recieve_cb] at h
  | none =>
    cases hdr with
    | none => simp [cmd_recieve_cb] at h
    | some msg =>
      simp only [cmd_recieve_cb] at h
      split_ifs at h <;>
        first
          | exact after_header_jump_target _ _ _ _ _ h
          | simp_all

/-! ## C5: Send-Async and Restart entry -/

/-- C5 (corrected): when the interrupt read completes with the
async-message-pending status bit set, the machine advances linearly to
Send-Async — which is not Get-Response. -/
theorem interrupt_pending_not_get_resp_cex :
    cmd_interrupt_cb none USB_ASYNC_MESSAGE_PENDING = InterruptOut.next ∧
    SYNAPTICS_CMD_WAIT_INTERRUPT + 1 = SYNAPTICS_CMD_SEND_ASYNC ∧
    SYNAPTICS_CMD_SEND_ASYNC ≠ SYNAPTICS_CMD_GET_RESP := by
  decide

/-- C5 (amended): the Send-Async and Restart states are entered only via
normal linear advancement — Wait-Interrupt advances to Send-Async when
the interrupt read completes with the async-message-pending bit, and
Send-Async advances to Restart — never via explicit jumps: every
explicit jump in the machine targets Send-Pending or Get-Response. -/
theorem send_async_restart_linear_entry :
    (∀ (s : Session)
        (cb : Option (Session → BmktResponse → Session × List DevEvent))
        (error : Option DriverError) (hdr : Option MsgResp)
        (pay : Option BmktResponse) (t : Nat),
      (cmd_recieve_cb s cb error hdr pay).action = SsmAction.jumpTo t →
        t = SYNAPTICS_CMD_SEND_PENDING) ∧
    (∀ (error : Option DriverError) (b t : Nat),
      cmd_interrupt_cb error b = InterruptOut.jump t →
        t = SYNAPTICS_CMD_GET_RESP) ∧
    (∀ (s : Session) (st t : Nat),
      synaptics_cmd_run_state s st = RunStateAct.jump t →
        t = SYNAPTICS_CMD_SEND_PENDING) ∧
    (∀ b : Nat, b &&& USB_ASYNC_MESSAGE_PENDING ≠ 0 →
      cmd_interrupt_cb none b = InterruptOut.next) ∧
    SYNAPTICS_CMD_WAIT_INTERRUPT + 1 = SYNAPTICS_CMD_SEND_ASYNC ∧
    SYNAPTICS_CMD_SEND_ASYNC + 1 = SYNAPTICS_CMD_RESTART := by
  refine ⟨recv_jump_target, ?_, ?_, ?_, rfl, rfl⟩
  · intro error b t h
    cases error with
    | some e =>
      simp only [cmd_interrupt_cb] at h
      split_ifs at h <;> simp_all
    | none =>
      simp only [cmd_interrupt_cb] at h
      split_ifs at h <;> simp_all
  · intro s st t h
    simp only [synaptics_cmd_run_state] at h
    split_ifs at h <;> simp_all
  · intro b hb
    simp only [cmd_interrupt_cb]
    rw [if_pos hb]

/-- C5 witness: the Restart state's jump targets Send-Pending, the
cancelled-interrupt jump targets Get-Response, and an interrupt byte
with the pending bit advances linearly. -/
theorem send_async_restart_linear_entry_witness :
    SYNAPTICS_CMD_SEND_PENDING = SYNAPTICS_CMD_SEND_PENDING ∧
    SYNAPTICS_CMD_GET_RESP = SYNAPTICS_CMD_GET_RESP ∧
    cmd_interrupt_cb none 5 = InterruptOut.next :=
  ⟨send_async_restart_linear_entry.2.2.1
      ⟨0, 0, false, false, none, 0, false, false⟩ SYNAPTICS_CMD_RESTART
      SYNAPTICS_CMD_SEND_PENDING (by decide),
   send_async_restart_linear_entry.2.1 (some DriverError.ioCancelled) 0
      SYNAPTICS_CMD_GET_RESP (by decide),
   send_async_restart_linear_entry.2.2.2.1 5 (by decide)⟩

/-- `verify_msg_cb` (as invoked from the receive path) never clears the
deferred-completion flag. -/
theorem verifyRecvCb_armed (s : Session) (r : BmktResponse)
    (h : s.cmd_complete_on_removal = true) :
    (verifyRecvCb s r).1.cmd_complete_on_removal = true := by
  unfold verifyRecvCb
  simp only [verify_msg_cb]
  split_ifs <;> first | exact h | rfl

/-- Processing one benign notice with deferred completion armed keeps it
armed and neither fails nor completes the run. -/
theorem recv_benign_armed (s : Session) (m : MsgResp) (r : BmktResponse)
    (hs : s.cmd_complete_on_removal = true)
    (hb : benignNotice m r = true) :
    (cmd_recieve_cb s (some verifyRecvCb) none (some m)
        (some r)).session.cmd_complete_on_removal = true ∧
    (∀ e, (cmd_recieve_cb s (some verifyRecvCb) none (some m)
        (some r)).action ≠ SsmAction.failed e) ∧
    (cmd_recieve_cb s (some verifyRecvCb) none (some m)
        (some r)).action ≠ SsmAction.completed := by
  have hb' := hb
  unfold benignNotice at hb'
  simp only [Bool.and_eq_true, Bool.or_eq_true, decide_eq_true_eq] at hb'
  obtain ⟨⟨⟨hfing, hc1⟩, hc2⟩, hzero⟩ := hb'
  have hf2 : m.msg_id = BMKT_EVT_FINGER_REPORT →
      (m.payload = [1] ∨
        (m.payload = [0] ∧ s.cmd_complete_on_removal = false)) := by
    intro h
    rcases hfing with h' | h'
    · exact absurd h h'
    · exact Or.inl h'
  obtain ⟨s', heq, harm, -, -, -, -⟩ :=
    cmd_recieve_cb_to_after s (some verifyRecvCb) m (some r) hf2
  rw [heq]
  by_cases hz : m.seq_num = 0
  · have hge : m.msg_id ≠ BMKT_RSP_GENERAL_ERROR := by
      rcases hzero with h | h
      · exact absurd hz h
      · exact h
    rw [after_header_seq_zero s' _ m r hz hc1 hc2]
    refine ⟨by rw [harm]; exact hs, fun e => ?_, ?_⟩
    · simp [hge]
    · simp [hge]
  · rw [after_header_callback s' verifyRecvCb m r hc1 hc2 hz]
    have harm2 : (verifyRecvCb s' r).1.cmd_complete_on_removal = true :=
      verifyRecvCb_armed s' r (by rw [harm]; exact hs)
    refine ⟨harm2, fun e => ?_, ?_⟩
    · by_cases hp : (verifyRecvCb s' r).1.cmd_pending_transfer
      · simp [hp]
      · simp [hp, harm2]
    · by_cases hp : (verifyRecvCb s' r).1.cmd_pending_transfer
      · simp [hp]
      · simp [hp, harm2]

/-- Any number of benign notices processed with deferred completion
armed leave the run unfinished and the flag armed. -/
theorem runResponses_benign_armed (msgs : List (MsgResp × BmktResponse)) :
    ∀ s : Session, s.cmd_complete_on_removal = true →
    (∀ p ∈ msgs, benignNotice p.1 p.2 = true) →
    (runResponses verifyRecvCb s msgs).2 = none ∧
    (runResponses verifyRecvCb s msgs).1.cmd_complete_on_removal = true := by
  induction msgs with
  | nil =>
    intro s hs _
    exact ⟨rfl, hs⟩
  | cons p rest ih =>
    intro s hs hb
    obtain ⟨m, r⟩ := p
    have hstep := recv_benign_armed s m r hs (hb (m, r) (List.mem_cons_self _ _))
    have hrest : ∀ q ∈ rest, benignNotice q.1 q.2 = true :=
      fun q hq => hb q (List.mem_cons_of_mem _ hq)
    simp only [runResponses]
    cases hact : (cmd_recieve_cb s (some verifyRecvCb) none (some m)
        (some r)).action with
    | failed e => exact absurd hact (hstep.2.1 e)
    | completed => exact absurd hact hstep.2.2
    | nextState => exact ih _ hstep.1 hrest
    | jumpTo t => exact ih _ hstep.1 hrest

/-- With deferred completion armed, a finger-removed report completes
the run at once (before payload parsing). -/
theorem recv_finger_removed_completes (s : Session)
    (cb : Option (Session → BmktResponse → Session × List DevEvent))
    (m : MsgResp) (pay : Option BmktResponse)
    (hs : s.cmd_complete_on_removal = true)
    (hm : m.msg_id = BMKT_EVT_FINGER_REPORT) (hp : m.payload = [0]) :
    (cmd_recieve_cb s cb none (some m) pay).action = SsmAction.completed := by
  simp only [cmd_recieve_cb]
  rw [if_pos hm, if_neg (by simp [hp]), if_neg (by simp [hp]), if_pos hs]

/-! ## C6: match failures deferred until finger removal -/

/-- C6: on a retryable verify failure (sensor stimulus error or
no-match) the interpreter emits no completion and arms deferred
completion; thereafter any number of benign asynchronous notices leave
the run unfinished, and the run completes exactly when the Get-Response
state sees a finger-removed report. -/
theorem verify_deferred_until_finger_removed (s : Session)
    (r0 : BmktResponse) (msgs : List (MsgResp × BmktResponse))
    (mFin : MsgResp) (pay : Option BmktResponse)
    (h0 : r0.response_id = BMKT_RSP_VERIFY_FAIL)
    (hr : r0.result = BMKT_SENSOR_STIMULUS_ERROR ∨
      r0.result = BMKT_FP_NO_MATCH)
    (hb : ∀ p ∈ msgs, benignNotice p.1 p.2 = true)
    (hf1 : mFin.msg_id = BMKT_EVT_FINGER_REPORT)
    (hf2 : mFin.payload = [0]) :
    (verify_msg_cb s (some r0) none).2 = [] ∧
    (verify_msg_cb s (some r0) none).1.cmd_complete_on_removal = true ∧
    (runResponses verifyRecvCb (verify_msg_cb s (some r0) none).1 msgs).2 =
      none ∧
    (cmd_recieve_cb
        (runResponses verifyRecvCb (verify_msg_cb s (some r0) none).1 msgs).1
        (some verifyRecvCb) none (some mFin) pay).action =
      SsmAction.completed := by
  have harm : (verify_msg_cb s (some r0) none).1.cmd_complete_on_removal =
      true ∧ (verify_msg_cb s (some r0) none).2 = [] := by
    rcases hr with h | h
    · rw [verify_cb_stimulus s r0 h0 h]
      exact ⟨rfl, rfl⟩
    · rw [verify_cb_no_match s r0 h0 h]
      exact ⟨rfl, rfl⟩
  have hrun := runResponses_benign_armed msgs _ harm.1 hb
  exact ⟨harm.2, harm.1, hrun.1,
    recv_finger_removed_completes _ _ _ _ hrun.2 hf1 hf2⟩

/-- C6 witness: a no-match failure, one intervening 0-sequence notice
and one finger-on notice, then a finger-removed report completing the
run. -/
theorem verify_deferred_until_finger_removed_witness :
    ((⟨BMKT_RSP_VERIFY_FAIL, BMKT_FP_NO_MATCH, true, 0⟩ :
        BmktResponse).response_id = BMKT_RSP_VERIFY_FAIL) ∧
    ((verify_msg_cb ⟨3, 3, true, false, none, 0, false, true⟩
        (some ⟨BMKT_RSP_VERIFY_FAIL, BMKT_FP_NO_MATCH, true, 0⟩) none).2 = [] ∧
     (verify_msg_cb ⟨3, 3, true, false, none, 0, false, true⟩
        (some ⟨BMKT_RSP_VERIFY_FAIL, BMKT_FP_NO_MATCH, true, 0⟩)
        none).1.cmd_complete_on_removal = true ∧
     (runResponses verifyRecvCb
        (verify_msg_cb ⟨3, 3, true, false, none, 0, false, true⟩
          (some ⟨BMKT_RSP_VERIFY_FAIL, BMKT_FP_NO_MATCH, true, 0⟩) none).1
        [(⟨7, 0, [9]⟩, ⟨5, 0, true, 0⟩),
         (⟨BMKT_EVT_FINGER_REPORT, 0, [1]⟩, ⟨5, 0, true, 0⟩)]).2 = none ∧
     (cmd_recieve_cb
        (runResponses verifyRecvCb
          (verify_msg_cb ⟨3, 3, true, false, none, 0, false, true⟩
            (some ⟨BMKT_RSP_VERIFY_FAIL, BMKT_FP_NO_MATCH, true, 0⟩) none).1
          [(⟨7, 0, [9]⟩, ⟨5, 0, true, 0⟩),
           (⟨BMKT_EVT_FINGER_REPORT, 0, [1]⟩, ⟨5, 0, true, 0⟩)]).1
        (some verifyRecvCb) none (some ⟨BMKT_EVT_FINGER_REPORT, 0, [0]⟩)
        (some ⟨5, 0, true, 0⟩)).action = SsmAction.completed) :=
  ⟨rfl, verify_deferred_until_finger_removed
    ⟨3, 3, true, false, none, 0, false, true⟩
    ⟨BMKT_RSP_VERIFY_FAIL, BMKT_FP_NO_MATCH, true, 0⟩
    [(⟨7, 0, [9]⟩, ⟨5, 0, true, 0⟩),
     (⟨BMKT_EVT_FINGER_REPORT, 0, [1]⟩, ⟨5, 0, true, 0⟩)]
    ⟨BMKT_EVT_FINGER_REPORT, 0, [0]⟩ (some ⟨5, 0, true, 0⟩)
    rfl (Or.inr rfl) (by decide) rfl rfl⟩
